import Mathlib

set_option maxRecDepth 4000

/-!
Shallow embedding of the Lambda defender operator scripts:
`test.py`, `defend3.py`, `defend4.py` (region scan, protection detection,
risk assessment, mutation) and `publish.py` / `publish1.py` (layer
publication).  Remote reads (CloudWatch metrics, provisioned and reserved
concurrency lookups, publish outcomes) are modelled as explicit inputs,
with the scripts' catch-and-default behaviour already folded in, exactly
as the corresponding `try/except` blocks do.
-/

/-! ## Data model -/

/-- One attached layer, as returned by the Lambda control plane. -/
structure LayerRef where
  Arn : String
deriving DecidableEq, Repr

/-- The `SnapStart` sub-object of a function configuration.  `ApplyOn` is
`none` when the key is missing from the response. -/
structure SnapStartConfig where
  ApplyOn : Option String
deriving DecidableEq, Repr

/-- A Lambda function configuration snapshot.  Fields the Python code reads
with `.get(key, default)` are `Option`s; the defaults are applied by the
accessor functions below, mirroring each call site. -/
structure FunctionConfig where
  FunctionName : String
  PackageType : Option String := none
  Architectures : Option (List String) := none
  Runtime : Option String := none
  MemorySize : Option Nat := none
  Timeout : Option Nat := none
  Layers : Option (List LayerRef) := none
  Environment : Option (List (String × String)) := none
  SnapStart : Option SnapStartConfig := none
deriving DecidableEq, Repr

/-- `function_config.get('Layers', [])` -/
def layersOf (fc : FunctionConfig) : List LayerRef := fc.Layers.getD []

/-- `function_config.get('Environment', {}).get('Variables', {})` -/
def envOf (fc : FunctionConfig) : List (String × String) := fc.Environment.getD []

/-- `function_config.get('Architectures', ['x86_64'])` -/
def archsOf (fc : FunctionConfig) : List String := fc.Architectures.getD [("x86_64")]

/-- `function_config.get('MemorySize', 128)` -/
def memoryOf (fc : FunctionConfig) : Nat := fc.MemorySize.getD 128

/-- `function_config.get('Timeout', 3)` -/
def timeoutOf (fc : FunctionConfig) : Nat := fc.Timeout.getD 3

/-- `function_config.get('SnapStart', {}).get('ApplyOn')`: Python `None`
when either key is absent. -/
def snapApplyOn (fc : FunctionConfig) : Option String :=
  fc.SnapStart.bind SnapStartConfig.ApplyOn

/-! ## String and dict primitives (Python `in`, `dict.get`, `dict.__setitem__`) -/

/-- Whether the second list is an initial segment of the first argument
reversed order: `strStarts pat cs` is true when `cs` begins with `pat`. -/
def strStarts : List Char → List Char → Bool
  | [], _ => true
  | _ :: _, [] => false
  | p :: ps, c :: cs => p == c && strStarts ps cs

/-- Whether `pat` occurs as a contiguous run inside `cs`. -/
def strFind : List Char → List Char → Bool
  | pat, [] => strStarts pat []
  | pat, c :: cs => strStarts pat (c :: cs) || strFind pat cs

/-- Python `pat in s` for strings (substring containment). -/
def strContainsSub (s pat : String) : Bool := strFind pat.data s.data

/-- Python `d.get(k)` / `d[k]` on a string-keyed dict, modelled as an
association list with unique keys. -/
def dictGet (k : String) : List (String × String) → Option String
  | [] => none
  | (a, b) :: t => if a = k then some b else dictGet k t

/-- Python `k in d` for a dict. -/
def dictHasKey (env : List (String × String)) (k : String) : Bool :=
  (dictGet k env).isSome

/-- Python `d[k] = v`: overwrite in place when the key exists (a dict keeps
the original position of an overwritten key), append otherwise. -/
def dictSet (k v : String) : List (String × String) → List (String × String)
  | [] => [(k, v)]
  | (a, b) :: t => if a = k then (k, v) :: t else (a, b) :: dictSet k v t

/-! ## Configuration constants shared by the scan scripts -/

/-- Identical in `test.py`, `defend3.py` and `defend4.py`. -/
def SUPPORTED_RUNTIMES : List String :=
  [("python3.8"), ("python3.9"), ("python3.10"), ("python3.11"), ("python3.12"),
   ("nodejs16.x"), ("nodejs18.x"), ("nodejs20.x")]

def MAX_LAYERS : Nat := 5
def MIN_MEMORY_MB : Nat := 256
def TIMEOUT_BUFFER_SEC : Nat := 30
def MAX_TIMEOUT_SEC : Nat := 900
def THROTTLE_LOOKBACK_HRS : Nat := 24
def MAX_ENV_VAR_SIZE_BYTES : Nat := 4096

/-- Marker environment variable set by the mutator. -/
def TW_POLICY_KEY : String := "TW_POLICY"

/-- Second environment variable set by the mutator. -/
def EXEC_WRAPPER_KEY : String := "AWS_LAMBDA_EXEC_WRAPPER"

/-- Fixed value of `AWS_LAMBDA_EXEC_WRAPPER`. -/
def WRAPPER_PATH : String := "/opt/twistlock/wrapper.sh"

/-! ## Protection Detector (identical in test.py, defend3.py and defend4.py) -/

/-- `is_protected`: any attached layer ARN containing `twistlock` or
`prisma`, or the marker key `TW_POLICY` present in the environment. -/
def is_protected (fc : FunctionConfig) : Bool :=
  if (layersOf fc).any
      (fun l => strContainsSub l.Arn ("twistlock") || strContainsSub l.Arn ("prisma"))
  then true
  else dictHasKey (envOf fc) TW_POLICY_KEY

/-! ## Mutator (deploy_defender, identical in test.py and defend3.py) -/

/-- The payload of an `update_function_configuration` call. -/
structure UpdateRequest where
  FunctionName : String
  Layers : List String
  EnvVariables : List (String × String)
deriving DecidableEq, Repr

/-- `[l['Arn'] for l in function_config.get('Layers', [])]` -/
def currentLayerArns (fc : FunctionConfig) : List String :=
  (layersOf fc).map LayerRef.Arn

/-- The configuration `deploy_defender` computes before the dry-run branch:
existing layer ARNs with the target layer appended, and the existing
environment with `TW_POLICY` then `AWS_LAMBDA_EXEC_WRAPPER` set. -/
def defenderUpdate (fc : FunctionConfig) (layer_arn : String) : UpdateRequest :=
  { FunctionName := fc.FunctionName
    Layers := currentLayerArns fc ++ [layer_arn]
    EnvVariables :=
      dictSet EXEC_WRAPPER_KEY WRAPPER_PATH
        (dictSet TW_POLICY_KEY fc.FunctionName (envOf fc)) }

/-- `deploy_defender` in `test.py` / `defend3.py`: in dry-run mode it only
logs and performs no remote call; otherwise it submits `defenderUpdate`. -/
def deploy_defender (dryRun : Bool) (fc : FunctionConfig) (layer_arn : String) :
    Option UpdateRequest :=
  if dryRun then none else some (defenderUpdate fc layer_arn)

/-- The effect of a successful `update_function_configuration` on the
function configuration: layers and environment variables are replaced. -/
def applyUpdate (fc : FunctionConfig) (u : UpdateRequest) : FunctionConfig :=
  { fc with
    Layers := some (u.Layers.map LayerRef.mk)
    Environment := some u.EnvVariables }

/-! ## Region Scanner actions -/

/-- What the scan loop does with one function. -/
inductive ScanAction where
  | skippedProtected
  | deployed (call : Option UpdateRequest)
  | skippedRisk (reason : String)
deriving DecidableEq, Repr

/-- Whether the Mutator (`deploy_defender`) was invoked for this function. -/
def invokesMutator : ScanAction → Bool
  | .deployed _ => true
  | _ => false

namespace Test

/-! Embedding of `test.py`. -/

def DRY_RUN : Bool := false

/-- `assess_risk` from `test.py`: the ordered predicate chain, first
failure wins. -/
def assess_risk (fc : FunctionConfig) : Bool × String :=
  if fc.PackageType = some ("Image") then
    (false, "Skipping: Deployed as Container Image (Requires Dockerfile embedding)")
  else if (archsOf fc).contains ("arm64") then
    (false, "Skipping: ARM64 Architecture not supported by Defender Layer")
  else if !(SUPPORTED_RUNTIMES.contains (fc.Runtime.getD (""))) then
    (false, "Skipping: Unsupported Runtime (" ++ fc.Runtime.getD ("") ++ ")")
  else if memoryOf fc < MIN_MEMORY_MB then
    (false, "Risk: Memory too low (" ++ toString (memoryOf fc) ++
      "MB). Minimum safe requires " ++ toString MIN_MEMORY_MB ++ "MB to avoid OOM.")
  else if timeoutOf fc > MAX_TIMEOUT_SEC - TIMEOUT_BUFFER_SEC then
    (false, "Risk: Timeout configured to " ++ toString (timeoutOf fc) ++
      "s. Too close to AWS limit (" ++ toString MAX_TIMEOUT_SEC ++
      "s) to safely add overhead.")
  else if (layersOf fc).length ≥ MAX_LAYERS then
    (false, "Skipping: Max Layers reached (" ++ toString (layersOf fc).length ++
      "/" ++ toString MAX_LAYERS ++ ")")
  else (true, "Safe")

/-- The body of the scan loop in `process_region` for one function. -/
def processFunction (layer_arn : String) (fc : FunctionConfig) : ScanAction :=
  if is_protected fc then .skippedProtected
  else
    let v := assess_risk fc
    if v.1 then .deployed (deploy_defender DRY_RUN fc layer_arn)
    else .skippedRisk v.2

/-- `process_region`, with pagination flattened into one list. -/
def process_region (layer_arn : String) (fns : List FunctionConfig) : List ScanAction :=
  fns.map (processFunction layer_arn)

end Test

namespace Defend3

/-! Embedding of `defend3.py`. -/

def DRY_RUN : Bool := true

/-- The remote reads `assess_risk_deep` performs, with the scripts'
catch-and-default behaviour folded in: a failed metric query yields 0, a
failed provisioned-concurrency lookup counts as absent, and a failed
reserved-concurrency lookup (or an absent key) is `none`. -/
structure MetricsEnv where
  provisioned : Bool
  throttleSum : Nat
  reserved : Option Nat
  maxConcurrencyUsed : Nat
deriving DecidableEq, Repr

/-- `assess_risk_deep` from `defend3.py`.  The concurrency comparison
`used > reserved * CONCURRENCY_BUFFER` (buffer 0.80) coincides, over the
integer metric values involved, with the exact comparison
`5 * used > 4 * reserved`, which is how it is embedded here.  Python
truthiness of `if reserved:` makes both `None` and `0` skip the check. -/
def assess_risk_deep (m : MetricsEnv) (fc : FunctionConfig) : Bool × String :=
  if fc.PackageType = some ("Image") then
    (false, "Deployed as Container Image (Requires Dockerfile embedding)")
  else if (archsOf fc).contains ("arm64") then
    (false, "ARM64 Architecture (Not supported by current Defender Layer)")
  else if !(SUPPORTED_RUNTIMES.contains (fc.Runtime.getD (""))) then
    (false, "Unsupported Runtime (" ++ fc.Runtime.getD ("") ++ ")")
  else if memoryOf fc < MIN_MEMORY_MB then
    (false, "Low Memory (" ++ toString (memoryOf fc) ++ "MB). Risk of OOM with Defender overhead.")
  else if timeoutOf fc > MAX_TIMEOUT_SEC - TIMEOUT_BUFFER_SEC then
    (false, "Timeout (" ++ toString (timeoutOf fc) ++ "s) too close to 15min limit.")
  else if (layersOf fc).length ≥ MAX_LAYERS then
    (false, "Max Layers Reached")
  else if m.provisioned then
    (false, "Function has Provisioned Concurrency (Modification triggers re-warming costs)")
  else if m.throttleSum > 0 then
    (false, "UNSTABLE: " ++ toString m.throttleSum ++ " Throttles detected in last " ++
      toString THROTTLE_LOOKBACK_HRS ++ "h. Do not touch.")
  else
    match m.reserved with
    | some r =>
        if r ≠ 0 ∧ 4 * r < 5 * m.maxConcurrencyUsed then
          (false, "High Concurrency Usage (" ++ toString m.maxConcurrencyUsed ++
            "/" ++ toString r ++ "). Adding latency risk.")
        else (true, "Safe")
    | none => (true, "Safe")

/-- The body of the scan loop in `process_region` for one function.  The
alias audit between assessment and deployment is advisory logging only and
does not influence the action taken. -/
def processFunction (layer_arn : String) (m : MetricsEnv) (fc : FunctionConfig) : ScanAction :=
  if is_protected fc then .skippedProtected
  else
    let v := assess_risk_deep m fc
    if v.1 then .deployed (deploy_defender DRY_RUN fc layer_arn)
    else .skippedRisk v.2

/-- `process_region`, with pagination flattened into one list. -/
def process_region (layer_arn : String) (fns : List (MetricsEnv × FunctionConfig)) :
    List ScanAction :=
  fns.map (fun p => processFunction layer_arn p.1 p.2)

end Defend3

namespace Defend4

/-! Embedding of `defend4.py`. -/

def DRY_RUN : Bool := true

/-- `calculate_env_size`: sum of `len(str(k)) + len(str(v))` over all
entries.  Python `len` on a `str` counts Unicode code points, which is
`String.length` here. -/
def calculate_env_size (env_vars : List (String × String)) : Nat :=
  env_vars.foldl (fun size kv => size + kv.1.length + kv.2.length) 0

/-- `check_throttling`: true when a datapoint was returned and its sum is
positive; a missing datapoint or a failed query yields false. -/
def check_throttling (throttleDatapoint : Option Nat) : Bool :=
  match throttleDatapoint with
  | some s => decide (0 < s)
  | none => false

/-- `get('Runtime') in SUPPORTED_RUNTIMES` with no default: an absent
runtime is not in the list. -/
def runtimeListed (rt : Option String) : Bool :=
  match rt with
  | some r => SUPPORTED_RUNTIMES.contains r
  | none => false

/-- The size of the two variables `deploy_defender` would add, as computed
inline in `assess_risk_deep_dive`. -/
def new_vars_size (funcName : String) : Nat :=
  TW_POLICY_KEY.length + funcName.length + EXEC_WRAPPER_KEY.length + WRAPPER_PATH.length

/-- `assess_risk_deep_dive` from `defend4.py`.  The VPC step only emits a
log line and never changes the verdict, so it has no clause here.  Note
the SnapStart clause compares `get('SnapStart', {}).get('ApplyOn')` —
which is Python `None` when the key is absent — against the string
`'None'`, so an absent SnapStart object fails the check. -/
def assess_risk_deep_dive (throttleDatapoint : Option Nat) (fc : FunctionConfig) :
    Bool × String :=
  if fc.PackageType = some ("Image") then
    (false, "Skipping: Container Image (Requires Dockerfile embedding)")
  else if (archsOf fc).contains ("arm64") then
    (false, "Skipping: ARM64 Architecture not supported")
  else if !(runtimeListed fc.Runtime) then
    (false, "Skipping: Unsupported Runtime")
  else if memoryOf fc < MIN_MEMORY_MB then
    (false, "Risk: Low Memory (<" ++ toString MIN_MEMORY_MB ++ "MB). Risk of OOM.")
  else if timeoutOf fc > MAX_TIMEOUT_SEC - TIMEOUT_BUFFER_SEC then
    (false, "Risk: Timeout too close to 15min limit.")
  else if calculate_env_size (envOf fc) + new_vars_size fc.FunctionName ≥
      MAX_ENV_VAR_SIZE_BYTES then
    (false, "CRITICAL: Env Vars too full (" ++
      toString (calculate_env_size (envOf fc) + new_vars_size fc.FunctionName) ++
      "/" ++ toString MAX_ENV_VAR_SIZE_BYTES ++
      " bytes). Adding Defender will crash deployment.")
  else if snapApplyOn fc ≠ some ("None") then
    (false, "Skipping: SnapStart enabled. Modifying layers requires complex version publishing.")
  else if check_throttling throttleDatapoint then
    (false, "Risk: Function was throttled in last 24h. Too unstable to modify.")
  else (true, "Safe")

/-- Outcome of `defend4.py`'s `deploy_defender`, which guards on the layer
count itself before the dry-run branch. -/
inductive DeployOutcome where
  | skippedMaxLayers
  | auditLogOnly
  | updated (u : UpdateRequest)
deriving DecidableEq, Repr

/-- `deploy_defender` from `defend4.py`: refuses (log and return) when the
function already has 5 or more layers, logs without mutating in dry-run
mode, and otherwise submits the merged configuration. -/
def deploy_defender (dryRun : Bool) (fc : FunctionConfig) (layer_arn : String) :
    DeployOutcome :=
  if (currentLayerArns fc).length ≥ 5 then .skippedMaxLayers
  else if dryRun then .auditLogOnly
  else .updated (defenderUpdate fc layer_arn)

end Defend4

namespace Publish

/-! Embedding of `publish.py`. -/

def TARGET_REGIONS : List String := [("us-east-1"), ("us-west-2"), ("eu-central-1")]

/-- Per-region result of a `publish_layer_version` attempt. -/
inductive RegionResult where
  | success (region : String)
  | failure (region : String)
deriving DecidableEq, Repr

/-- The region a result belongs to. -/
def regionOf : RegionResult → String
  | .success r => r
  | .failure r => r

/-- `publish_to_aws` from `publish.py`: each region is attempted in turn;
an exception is caught, printed and the loop continues. -/
def publish_to_aws (outcome : String → Bool) : List String → List RegionResult
  | [] => []
  | r :: rs =>
      (if outcome r then RegionResult.success r else RegionResult.failure r) ::
        publish_to_aws outcome rs

/-- `main` from `publish.py`: `get_auth_token` and
`download_defender_layer` both call `exit(1)` on failure, so no publish is
attempted unless both succeed. -/
def publishRun (authOk downloadOk : Bool) (outcome : String → Bool) :
    List RegionResult :=
  if authOk then
    if downloadOk then publish_to_aws outcome TARGET_REGIONS else []
  else []

end Publish

namespace Publish1

/-! Embedding of `publish1.py`. -/

def TARGET_REGIONS : List String := [("ap-southeast-1")]

/-- `publish_to_aws` from `publish1.py`: a failure is caught and the loop
continues, but a success executes `return layer_arn`, ending the loop. -/
def publish_to_aws (outcome : String → Bool) : List String → List Publish.RegionResult
  | [] => []
  | r :: rs =>
      if outcome r then [Publish.RegionResult.success r]
      else Publish.RegionResult.failure r :: publish_to_aws outcome rs

/-- `main` from `publish1.py`: authentication and download both call
`exit(1)` on failure before any publish is attempted. -/
def publishRun (authOk downloadOk : Bool) (outcome : String → Bool) :
    List Publish.RegionResult :=
  if authOk then
    if downloadOk then publish_to_aws outcome TARGET_REGIONS else []
  else []

end Publish1

/-! ## Spec-side byte-size definitions

The spec describes the environment-variable ceiling as a count of bytes.
These definitions follow the spec's words (UTF-8 byte length), to be
compared with `Defend4.calculate_env_size`, which embeds the code's
`len(str(k)) + len(str(v))` (a count of Unicode code points). -/

/-- UTF-8 encoded size of one character. -/
def charUtf8Bytes (c : Char) : Nat :=
  if c.toNat < 128 then 1
  else if c.toNat < 2048 then 2
  else if c.toNat < 65536 then 3
  else 4

/-- UTF-8 byte length of a string. -/
def strUtf8Bytes (s : String) : Nat := (s.data.map charUtf8Bytes).sum

/-- The spec's environment-size measure: sum of key-length plus
value-length in bytes across all entries. -/
def specEnvByteSize (env : List (String × String)) : Nat :=
  (env.map (fun kv => strUtf8Bytes kv.1 + strUtf8Bytes kv.2)).sum

/-- The spec's byte size of the two proposed variables: `TW_POLICY` with
the function name as value and `AWS_LAMBDA_EXEC_WRAPPER` with its fixed
path value. -/
def specProposedBytes (funcName : String) : Nat :=
  strUtf8Bytes TW_POLICY_KEY + strUtf8Bytes funcName +
    strUtf8Bytes EXEC_WRAPPER_KEY + strUtf8Bytes WRAPPER_PATH

/-! ## Concrete configurations and metric environments used in the proofs -/

/-- Metrics with nothing observed: no provisioned concurrency, zero
throttles (also the default when the metric query fails), no reserved
concurrency. -/
def quietMetrics : Defend3.MetricsEnv :=
  { provisioned := false, throttleSum := 0, reserved := none, maxConcurrencyUsed := 0 }

/-- Three throttle events in the trailing window, nothing else. -/
def throttledMetrics : Defend3.MetricsEnv :=
  { provisioned := false, throttleSum := 3, reserved := none, maxConcurrencyUsed := 0 }

/-- Reserved concurrency 10, observed 1h maximum 8. -/
def saturatedMetrics8 : Defend3.MetricsEnv :=
  { provisioned := false, throttleSum := 0, reserved := some 10, maxConcurrencyUsed := 8 }

/-- Reserved concurrency 10, observed 1h maximum 9. -/
def saturatedMetrics9 : Defend3.MetricsEnv :=
  { provisioned := false, throttleSum := 0, reserved := some 10, maxConcurrencyUsed := 9 }

/-- A configuration that passes every predicate of all three Risk
Assessors: zip package, x86_64, allow-listed runtime, 512 MB, 60 s
timeout, no layers, a small environment, SnapStart disabled. -/
def baseSafeConfig : FunctionConfig :=
  { FunctionName := "orders-api"
    Runtime := some ("python3.9")
    MemorySize := some 512
    Timeout := some 60
    Layers := some []
    Environment := some [(("CFG"), ("1"))]
    SnapStart := some { ApplyOn := some ("None") } }

/-- Timeout one second below the 870 s threshold. -/
def fc869 : FunctionConfig := { baseSafeConfig with Timeout := some 869 }

/-- Timeout one second above the 870 s threshold. -/
def fc871 : FunctionConfig := { baseSafeConfig with Timeout := some 871 }

/-- No `SnapStart` object in the configuration at all. -/
def fcSnapAbsent : FunctionConfig := { baseSafeConfig with SnapStart := none }

/-- SnapStart enabled on published versions. -/
def fcSnapEnabled : FunctionConfig :=
  { baseSafeConfig with SnapStart := some { ApplyOn := some ("PublishedVersions") } }

/-- Five attached layers (at the configured maximum). -/
def fcFiveLayers : FunctionConfig :=
  { baseSafeConfig with
    Layers :=
      some [⟨("layer-a")⟩, ⟨("layer-b")⟩, ⟨("layer-c")⟩, ⟨("layer-d")⟩, ⟨("layer-e")⟩] }

/-- Six attached layers (above the configured maximum). -/
def fcSixLayers : FunctionConfig :=
  { baseSafeConfig with
    Layers :=
      some [⟨("layer-a")⟩, ⟨("layer-b")⟩, ⟨("layer-c")⟩, ⟨("layer-d")⟩,
        ⟨("layer-e")⟩, ⟨("layer-f")⟩] }

/-- Already protected (marker key present) and also unsafe (container
image). -/
def fcProtectedUnsafe : FunctionConfig :=
  { baseSafeConfig with
    PackageType := some ("Image")
    Environment := some [((TW_POLICY_KEY), ("stale"))] }

/-- An environment entry used to observe that unrelated keys survive the
merge. -/
def fcEnvPair : FunctionConfig :=
  { baseSafeConfig with Environment := some [(("FOO"), ("bar"))] }

/-- 2050 copies of a character that is 1 code point but 2 UTF-8 bytes. -/
def wideValue : String := String.mk (List.replicate 2050 'é')

/-- Existing environment totalling 2051 code points but 4101 UTF-8 bytes;
with the 58 bytes of proposed additions, the byte total crosses the 4096
ceiling while the code-point total does not. -/
def fcWideEnv : FunctionConfig :=
  { baseSafeConfig with FunctionName := "f", Environment := some [(("A"), wideValue)] }

/-! ## Helper lemmas -/

/-- Setting a key makes it retrievable with its new value. -/
theorem dictGet_dictSet_self (k v : String) (d : List (String × String)) :
    dictGet k (dictSet k v d) = some v := by
  induction d with
  | nil => simp [dictSet, dictGet]
  | cons hd t ih =>
      obtain ⟨a, b⟩ := hd
      by_cases h : a = k
      · simp [dictSet, h, dictGet]
      · simp [dictSet, h, dictGet, ih]

/-- Setting a key leaves every other key unchanged. -/
theorem dictGet_dictSet_ne (k q v : String) (d : List (String × String)) (h : q ≠ k) :
    dictGet q (dictSet k v d) = dictGet q d := by
  induction d with
  | nil => simp [dictSet, dictGet, Ne.symm h]
  | cons hd t ih =>
      obtain ⟨a, b⟩ := hd
      by_cases hak : a = k
      · subst hak
        simp [dictSet, dictGet, Ne.symm h]
      · simp only [dictSet, if_neg hak]
        by_cases haq : a = q
        · subst haq
          simp [dictGet]
        · simp [dictGet, haq, ih]

/-- The environment the Mutator computes, spelled out. -/
theorem defenderUpdate_env (fc : FunctionConfig) (arn : String) :
    (defenderUpdate fc arn).EnvVariables =
      dictSet EXEC_WRAPPER_KEY WRAPPER_PATH
        (dictSet TW_POLICY_KEY fc.FunctionName (envOf fc)) := rfl

/-! ## Claims -/

/-- C8: when the Mutator runs on a FunctionConfig, the configuration it
computes has exactly the existing ordered layer list with the single
target layer appended at the end, and exactly the existing environment
mapping with `TW_POLICY` (value: the function name) and
`AWS_LAMBDA_EXEC_WRAPPER` (value: its fixed path) merged in, overwriting
same-named keys and leaving every other entry unchanged; in audit-only
(dry-run) mode no remote mutation is performed, otherwise exactly this
configuration is submitted. -/
theorem c8_mutator_merge (fc : FunctionConfig) (arn : String) :
    (defenderUpdate fc arn).Layers = currentLayerArns fc ++ [arn] ∧
    dictGet TW_POLICY_KEY (defenderUpdate fc arn).EnvVariables = some fc.FunctionName ∧
    dictGet EXEC_WRAPPER_KEY (defenderUpdate fc arn).EnvVariables = some WRAPPER_PATH ∧
    (∀ k, k ≠ TW_POLICY_KEY → k ≠ EXEC_WRAPPER_KEY →
      dictGet k (defenderUpdate fc arn).EnvVariables = dictGet k (envOf fc)) ∧
    deploy_defender true fc arn = none ∧
    deploy_defender false fc arn = some (defenderUpdate fc arn) := by
  refine ⟨rfl, ?_, ?_, ?_, rfl, rfl⟩
  · rw [defenderUpdate_env, dictGet_dictSet_ne _ _ _ _ (by decide), dictGet_dictSet_self]
  · rw [defenderUpdate_env, dictGet_dictSet_self]
  · intro k hk1 hk2
    rw [defenderUpdate_env, dictGet_dictSet_ne _ _ _ _ hk2, dictGet_dictSet_ne _ _ _ _ hk1]

/-- C8 witness: at a concrete configuration, an unrelated key survives the
merge unchanged and dry-run submits nothing. -/
theorem c8_mutator_merge_witness :
    dictGet ("FOO") (defenderUpdate fcEnvPair ("arn-w8")).EnvVariables =
      dictGet ("FOO") (envOf fcEnvPair) ∧
    deploy_defender true fcEnvPair ("arn-w8") = none :=
  ⟨(c8_mutator_merge fcEnvPair ("arn-w8")).2.2.2.1 ("FOO") (by decide) (by decide),
   (c8_mutator_merge fcEnvPair ("arn-w8")).2.2.2.2.1⟩

/-- C10: applying the Mutator's merge to any FunctionConfig yields a
configuration on which the Protection Detector returns true, because the
merged environment always contains the marker key `TW_POLICY`; a
successfully mutated function is therefore skipped on every later scan. -/
theorem c10_mutation_implies_protected (fc : FunctionConfig) (arn : String) :
    is_protected (applyUpdate fc (defenderUpdate fc arn)) = true := by
  have hkey : dictHasKey (envOf (applyUpdate fc (defenderUpdate fc arn))) TW_POLICY_KEY = true := by
    have henv : envOf (applyUpdate fc (defenderUpdate fc arn)) =
        dictSet EXEC_WRAPPER_KEY WRAPPER_PATH
          (dictSet TW_POLICY_KEY fc.FunctionName (envOf fc)) := rfl
    rw [dictHasKey, henv, dictGet_dictSet_ne _ _ _ _ (by decide), dictGet_dictSet_self]
    rfl
  unfold is_protected
  split
  · rfl
  · exact hkey

/-- C1: in the region scans of `test.py` and `defend3.py`, the Mutator
(`deploy_defender`) is never invoked for a function the Protection
Detector already flags as protected, and never for one the Risk Assessor
deems unsafe. -/
theorem c1_mutator_gated (arn : String) (m : Defend3.MetricsEnv) (fc : FunctionConfig) :
    (is_protected fc = true →
      invokesMutator (Test.processFunction arn fc) = false ∧
      invokesMutator (Defend3.processFunction arn m fc) = false) ∧
    ((Test.assess_risk fc).1 = false →
      invokesMutator (Test.processFunction arn fc) = false) ∧
    ((Defend3.assess_risk_deep m fc).1 = false →
      invokesMutator (Defend3.processFunction arn m fc) = false) := by
  refine ⟨fun hp => ?_, fun hu => ?_, fun hu => ?_⟩
  · constructor <;>
      simp [Test.processFunction, Defend3.processFunction, hp, invokesMutator]
  · unfold Test.processFunction
    split
    · rfl
    · simp [hu, invokesMutator]
  · unfold Defend3.processFunction
    split
    · rfl
    · simp [hu, invokesMutator]

/-- C1 witness: a function that is both already protected and assessed
unsafe is not mutated by either scan. -/
theorem c1_mutator_gated_witness :
    invokesMutator (Test.processFunction ("arn-w1") fcProtectedUnsafe) = false ∧
    invokesMutator (Defend3.processFunction ("arn-w1") quietMetrics fcProtectedUnsafe) = false :=
  (c1_mutator_gated ("arn-w1") quietMetrics fcProtectedUnsafe).1 (by decide)

/-- C2 counterexample: `defend4.py`'s Risk Assessor
(`assess_risk_deep_dive`) has no layer-count predicate.  This function has
6 attached layers — above the configured maximum of 5 — yet is assessed
safe, refuting the claim that the Risk Assessor returns unsafe for every
such FunctionConfig. -/
theorem c2_layer_cap_counterexample :
    MAX_LAYERS ≤ (layersOf fcSixLayers).length ∧
    Defend4.assess_risk_deep_dive (some 0) fcSixLayers = (true, "Safe") := by
  exact ⟨by decide, rfl⟩

/-- C2 (amended): with 5 or more attached layers the Risk Assessors of
`test.py` and `defend3.py` return an unsafe verdict, so such a function
never reaches their Mutator; in `defend4.py` the layer-count check sits in
the Mutator itself, which refuses to submit an update for such a function
(logging its own skip message), while that file's Risk Assessor can still
return safe. -/
theorem c2_layer_cap_amended (fc : FunctionConfig) (m : Defend3.MetricsEnv)
    (d : Bool) (arn : String) (h : MAX_LAYERS ≤ (layersOf fc).length) :
    (Test.assess_risk fc).1 = false ∧
    (Defend3.assess_risk_deep m fc).1 = false ∧
    Defend4.deploy_defender d fc arn = Defend4.DeployOutcome.skippedMaxLayers := by
  refine ⟨?_, ?_, ?_⟩
  · unfold Test.assess_risk
    split_ifs with h1 h2 h3 h4 h5 <;> rfl
  · unfold Defend3.assess_risk_deep
    split_ifs with h1 h2 h3 h4 h5 <;> rfl
  · unfold Defend4.deploy_defender
    rw [if_pos]
    simpa [currentLayerArns, MAX_LAYERS] using h

/-- C2 witness: a function at exactly 5 layers is refused by all three
files. -/
theorem c2_layer_cap_amended_witness :
    (Test.assess_risk fcFiveLayers).1 = false ∧
    (Defend3.assess_risk_deep quietMetrics fcFiveLayers).1 = false ∧
    Defend4.deploy_defender true fcFiveLayers ("arn-w2") =
      Defend4.DeployOutcome.skippedMaxLayers :=
  c2_layer_cap_amended fcFiveLayers quietMetrics true ("arn-w2") (by decide)

/-- C3 (code bug): `defend4.py`'s SnapStart clause compares
`get('SnapStart', {}).get('ApplyOn')` — Python `None` when the key is
absent — against the string `'None'`, so a configuration with no SnapStart
object at all is flagged unsafe with the SnapStart reason, although the
script's own description says only SnapStart-enabled functions are to be
skipped.  A configuration whose mode is the disabled value `'None'`
passes, and an enabled one is flagged, as the claim states. -/
theorem c3_snapstart_absent_flagged :
    fcSnapAbsent.SnapStart = none ∧
    Defend4.assess_risk_deep_dive (some 0) fcSnapAbsent =
      (false, "Skipping: SnapStart enabled. Modifying layers requires complex version publishing.") ∧
    Defend4.assess_risk_deep_dive (some 0) baseSafeConfig = (true, "Safe") ∧
    Defend4.assess_risk_deep_dive (some 0) fcSnapEnabled =
      (false, "Skipping: SnapStart enabled. Modifying layers requires complex version publishing.") :=
  ⟨rfl, rfl, rfl, rfl⟩

/-- The wide value is 2050 code points long. -/
theorem wideValue_length : wideValue.length = 2050 := by
  show (List.replicate 2050 'é').length = 2050
  exact List.length_replicate 2050 'é'

/-- Python `len` total for the wide environment: 2051 code points. -/
theorem wideEnv_codepoints : Defend4.calculate_env_size (envOf fcWideEnv) = 2051 := by
  show Defend4.calculate_env_size [(("A"), wideValue)] = 2051
  simp only [Defend4.calculate_env_size, List.foldl_cons, List.foldl_nil]
  rw [wideValue_length]
  decide

/-- UTF-8 total for the wide environment: 4101 bytes. -/
theorem wideEnv_bytes : specEnvByteSize (envOf fcWideEnv) = 4101 := by
  show specEnvByteSize [(("A"), wideValue)] = 4101
  simp only [specEnvByteSize, List.map_cons, List.map_nil, List.sum_cons, List.sum_nil]
  have h1 : strUtf8Bytes ("A") = 1 := by decide
  have h2 : strUtf8Bytes wideValue = 4100 := by
    show (List.map charUtf8Bytes (List.replicate 2050 'é')).sum = 4100
    rw [List.map_replicate]
    have hc : charUtf8Bytes 'é' = 2 := by decide
    rw [hc, List.sum_replicate]
    norm_num
  rw [h1, h2]
  decide

/-- C4 (code bug): the env-var predicate compares `total >= 4096` exactly
as the claim says, but the total is computed with Python `len`, which
counts Unicode code points, not bytes as `calculate_env_size`'s own
docstring and the spec state.  For this configuration the UTF-8 byte
total of existing plus proposed variables is 4159 ≥ 4096, yet the
code-point total is only 2109, and the Risk Assessor reports the function
safe. -/
theorem c4_env_ceiling_bytes_divergence :
    MAX_ENV_VAR_SIZE_BYTES ≤
      specEnvByteSize (envOf fcWideEnv) + specProposedBytes fcWideEnv.FunctionName ∧
    Defend4.calculate_env_size (envOf fcWideEnv) +
        Defend4.new_vars_size fcWideEnv.FunctionName < MAX_ENV_VAR_SIZE_BYTES ∧
    Defend4.assess_risk_deep_dive (some 0) fcWideEnv = (true, "Safe") := by
  have hcp : Defend4.calculate_env_size (envOf fcWideEnv) = 2051 := wideEnv_codepoints
  refine ⟨?_, ?_, ?_⟩
  · rw [wideEnv_bytes]
    decide
  · rw [hcp]
    decide
  · have hsize : ¬ (Defend4.calculate_env_size (envOf fcWideEnv) +
        Defend4.new_vars_size fcWideEnv.FunctionName ≥ MAX_ENV_VAR_SIZE_BYTES) := by
      rw [hcp]
      decide
    unfold Defend4.assess_risk_deep_dive
    rw [if_neg (by decide), if_neg (by decide), if_neg (by decide), if_neg (by decide),
      if_neg (by decide), if_neg hsize, if_neg (by decide), if_neg (by decide)]

/-- C5 counterexample: with a throttle-metric sum of 3, `defend4.py`'s
Risk Assessor returns unsafe, but its reason is fixed text that does not
embed the count, refuting the claim that the count is embedded in the
reason string. -/
theorem c5_throttle_count_counterexample :
    (Defend4.assess_risk_deep_dive (some 3) baseSafeConfig).1 = false ∧
    strContainsSub (Defend4.assess_risk_deep_dive (some 3) baseSafeConfig).2
      (toString (3 : Nat)) = false :=
  ⟨rfl, by decide⟩

/-- C5 (amended): for a FunctionConfig that passes the preceding
predicates, a positive 24-hour throttle sum makes both deep Risk
Assessors return unsafe; `defend3.py` embeds the count in its reason,
while `defend4.py`'s reason is a fixed string without the count; a sum of
0 — including the zero default on metric-query failure — passes the
throttle predicate in both. -/
theorem c5_throttle_amended (m : Defend3.MetricsEnv) (fc : FunctionConfig)
    (h1 : fc.PackageType ≠ some ("Image"))
    (h2 : (archsOf fc).contains ("arm64") = false)
    (h3 : SUPPORTED_RUNTIMES.contains (fc.Runtime.getD ("")) = true)
    (h4 : MIN_MEMORY_MB ≤ memoryOf fc)
    (h5 : timeoutOf fc ≤ MAX_TIMEOUT_SEC - TIMEOUT_BUFFER_SEC)
    (h6 : (layersOf fc).length < MAX_LAYERS)
    (h7 : m.provisioned = false)
    (h8 : Defend4.calculate_env_size (envOf fc) + Defend4.new_vars_size fc.FunctionName <
      MAX_ENV_VAR_SIZE_BYTES)
    (h9 : snapApplyOn fc = some ("None"))
    (h10 : m.reserved = none) :
    (0 < m.throttleSum →
      Defend3.assess_risk_deep m fc =
        (false, "UNSTABLE: " ++ toString m.throttleSum ++ " Throttles detected in last " ++
          toString THROTTLE_LOOKBACK_HRS ++ "h. Do not touch.")) ∧
    (m.throttleSum = 0 → Defend3.assess_risk_deep m fc = (true, "Safe")) ∧
    (∀ s : Nat, 0 < s →
      Defend4.assess_risk_deep_dive (some s) fc =
        (false, "Risk: Function was throttled in last 24h. Too unstable to modify.")) ∧
    Defend4.assess_risk_deep_dive (some 0) fc = (true, "Safe") ∧
    Defend4.assess_risk_deep_dive none fc = (true, "Safe") := by
  have hmem : ¬ (memoryOf fc < MIN_MEMORY_MB) := not_lt.mpr h4
  have htime : ¬ (timeoutOf fc > MAX_TIMEOUT_SEC - TIMEOUT_BUFFER_SEC) := not_lt.mpr h5
  have hlay : ¬ ((layersOf fc).length ≥ MAX_LAYERS) := not_le.mpr h6
  have henv : ¬ (Defend4.calculate_env_size (envOf fc) +
      Defend4.new_vars_size fc.FunctionName ≥ MAX_ENV_VAR_SIZE_BYTES) := not_le.mpr h8
  have hrl : Defend4.runtimeListed fc.Runtime = true := by
    cases hr : fc.Runtime with
    | none =>
        rw [hr, Option.getD_none] at h3
        exact absurd h3 (by decide)
    | some r =>
        rw [hr, Option.getD_some] at h3
        simpa [Defend4.runtimeListed] using h3
  refine ⟨fun ht => ?_, fun ht => ?_, fun s hs => ?_, ?_, ?_⟩
  · unfold Defend3.assess_risk_deep
    rw [if_neg h1, if_neg (by rw [h2]; decide), if_neg (by rw [h3]; decide), if_neg hmem,
      if_neg htime, if_neg hlay, if_neg (by rw [h7]; decide), if_pos ht]
  · unfold Defend3.assess_risk_deep
    rw [if_neg h1, if_neg (by rw [h2]; decide), if_neg (by rw [h3]; decide), if_neg hmem,
      if_neg htime, if_neg hlay, if_neg (by rw [h7]; decide), if_neg (by rw [ht]; decide), h10]
  · unfold Defend4.assess_risk_deep_dive
    rw [if_neg h1, if_neg (by rw [h2]; decide), if_neg (by rw [hrl]; decide), if_neg hmem,
      if_neg htime, if_neg henv, if_neg (by rw [h9]; decide),
      if_pos (by simp [Defend4.check_throttling, hs])]
  · unfold Defend4.assess_risk_deep_dive
    rw [if_neg h1, if_neg (by rw [h2]; decide), if_neg (by rw [hrl]; decide), if_neg hmem,
      if_neg htime, if_neg henv, if_neg (by rw [h9]; decide), if_neg (by decide)]
  · unfold Defend4.assess_risk_deep_dive
    rw [if_neg h1, if_neg (by rw [h2]; decide), if_neg (by rw [hrl]; decide), if_neg hmem,
      if_neg htime, if_neg henv, if_neg (by rw [h9]; decide), if_neg (by decide)]

/-- C5 witness: at a concrete configuration with three throttle events,
defend3's verdict embeds the count; with zero events the predicate
passes. -/
theorem c5_throttle_amended_witness :
    Defend3.assess_risk_deep throttledMetrics baseSafeConfig =
      (false, "UNSTABLE: " ++ toString throttledMetrics.throttleSum ++
        " Throttles detected in last " ++ toString THROTTLE_LOOKBACK_HRS ++
        "h. Do not touch.") ∧
    Defend3.assess_risk_deep quietMetrics baseSafeConfig = (true, "Safe") :=
  ⟨(c5_throttle_amended throttledMetrics baseSafeConfig (by decide) (by decide) (by decide)
      (by decide) (by decide) (by decide) (by decide) (by decide) (by decide) (by decide)).1
      (by decide),
   (c5_throttle_amended quietMetrics baseSafeConfig (by decide) (by decide) (by decide)
      (by decide) (by decide) (by decide) (by decide) (by decide) (by decide) (by decide)).2.1
      (by decide)⟩

/-- C6: the concurrency-saturation predicate is strict: for a
FunctionConfig passing the preceding predicates, the verdict is unsafe
exactly when a (truthy) reserved-concurrency limit is set and the observed
1-hour maximum strictly exceeds 0.80 of it (over these integers,
5 · observed > 4 · reserved); with reserved = 10, observed 8 passes and
observed 9 fails. -/
theorem c6_concurrency_strict (m : Defend3.MetricsEnv) (fc : FunctionConfig)
    (h1 : fc.PackageType ≠ some ("Image"))
    (h2 : (archsOf fc).contains ("arm64") = false)
    (h3 : SUPPORTED_RUNTIMES.contains (fc.Runtime.getD ("")) = true)
    (h4 : MIN_MEMORY_MB ≤ memoryOf fc)
    (h5 : timeoutOf fc ≤ MAX_TIMEOUT_SEC - TIMEOUT_BUFFER_SEC)
    (h6 : (layersOf fc).length < MAX_LAYERS)
    (h7 : m.provisioned = false)
    (h8 : m.throttleSum = 0) :
    ((Defend3.assess_risk_deep m fc).1 = false ↔
      ∃ r, m.reserved = some r ∧ r ≠ 0 ∧ 4 * r < 5 * m.maxConcurrencyUsed) ∧
    Defend3.assess_risk_deep saturatedMetrics8 baseSafeConfig = (true, "Safe") ∧
    (Defend3.assess_risk_deep saturatedMetrics9 baseSafeConfig).1 = false := by
  have hmem : ¬ (memoryOf fc < MIN_MEMORY_MB) := not_lt.mpr h4
  have htime : ¬ (timeoutOf fc > MAX_TIMEOUT_SEC - TIMEOUT_BUFFER_SEC) := not_lt.mpr h5
  have hlay : ¬ ((layersOf fc).length ≥ MAX_LAYERS) := not_le.mpr h6
  refine ⟨?_, rfl, rfl⟩
  unfold Defend3.assess_risk_deep
  rw [if_neg h1, if_neg (by rw [h2]; decide), if_neg (by rw [h3]; decide), if_neg hmem,
    if_neg htime, if_neg hlay, if_neg (by rw [h7]; decide), if_neg (by rw [h8]; decide)]
  cases hr : m.reserved with
  | none => simp
  | some r =>
      by_cases hc : r ≠ 0 ∧ 4 * r < 5 * m.maxConcurrencyUsed
      · simp [hc.1, hc.2]
      · simp [hc]

/-- C6 witness: at reserved 10 and observed 9 the strict characterisation
is discharged at a concrete input. -/
theorem c6_concurrency_strict_witness :
    ((Defend3.assess_risk_deep saturatedMetrics9 baseSafeConfig).1 = false ↔
      ∃ r, saturatedMetrics9.reserved = some r ∧ r ≠ 0 ∧
        4 * r < 5 * saturatedMetrics9.maxConcurrencyUsed) :=
  (c6_concurrency_strict saturatedMetrics9 baseSafeConfig (by decide) (by decide) (by decide)
    (by decide) (by decide) (by decide) (by decide) (by decide)).1

/-- C7: with buffer 30 s and ceiling 900 s, every FunctionConfig with
timeout 871 is assessed unsafe by the Risk Assessors of `test.py` and
`defend3.py`, no matter which later predicates would also fail; timeout
869 passes the timeout predicate (and, on an otherwise safe
configuration, the whole assessment). -/
theorem c7_timeout_boundary (fc : FunctionConfig) (m : Defend3.MetricsEnv)
    (h : fc.Timeout = some 871) :
    (Test.assess_risk fc).1 = false ∧
    (Defend3.assess_risk_deep m fc).1 = false ∧
    Test.assess_risk fc869 = (true, "Safe") ∧
    Defend3.assess_risk_deep quietMetrics fc869 = (true, "Safe") := by
  have ht : timeoutOf fc = 871 := by simp [timeoutOf, h]
  refine ⟨?_, ?_, rfl, rfl⟩
  · unfold Test.assess_risk
    simp only [MAX_TIMEOUT_SEC, TIMEOUT_BUFFER_SEC]
    split_ifs with h1 h2 h3 h4 h5 h6 <;> first | rfl | omega
  · unfold Defend3.assess_risk_deep
    simp only [MAX_TIMEOUT_SEC, TIMEOUT_BUFFER_SEC]
    split_ifs with h1 h2 h3 h4 h5 h6 h7 h8 <;> first | rfl | omega

/-- C7 witness: the concrete configuration with timeout 871 is unsafe for
both assessors. -/
theorem c7_timeout_boundary_witness :
    (Test.assess_risk fc871).1 = false ∧
    (Defend3.assess_risk_deep quietMetrics fc871).1 = false :=
  ⟨(c7_timeout_boundary fc871 quietMetrics rfl).1,
   (c7_timeout_boundary fc871 quietMetrics rfl).2.1⟩

/-- C9: in the Layer Publisher a publish is attempted for every configured
target region — `publish.py` attempts every region of any list regardless
of outcomes, and `publish1.py` covers its configured single-region list —
and a failure in one region is logged without aborting the remaining
regions in either file; only an authentication or bundle-download failure
terminates the run before any publishing. -/
theorem c9_publish_per_region (outcome : String → Bool) (regions : List String)
    (r : String) (rs : List String) (a d : Bool) (hfail : outcome r = false) :
    (Publish.publish_to_aws outcome regions).map Publish.regionOf = regions ∧
    Publish1.publish_to_aws outcome (r :: rs) =
      Publish.RegionResult.failure r :: Publish1.publish_to_aws outcome rs ∧
    (Publish1.publish_to_aws outcome Publish1.TARGET_REGIONS).map Publish.regionOf =
      Publish1.TARGET_REGIONS ∧
    (a = false ∨ d = false →
      Publish.publishRun a d outcome = [] ∧ Publish1.publishRun a d outcome = []) ∧
    Publish.publishRun true true outcome =
      Publish.publish_to_aws outcome Publish.TARGET_REGIONS := by
  refine ⟨?_, ?_, ?_, ?_, rfl⟩
  · induction regions with
    | nil => rfl
    | cons x xs ih =>
        unfold Publish.publish_to_aws
        cases hx : outcome x <;> simp [Publish.regionOf, ih]
  · rw [Publish1.publish_to_aws, if_neg (by rw [hfail]; decide)]
  · unfold Publish1.TARGET_REGIONS Publish1.publish_to_aws
    cases hx : outcome ("ap-southeast-1") <;>
      simp [hx, Publish1.publish_to_aws, Publish.regionOf]
  · rintro (ha | hd)
    · subst ha
      exact ⟨rfl, rfl⟩
    · subst hd
      cases a <;> exact ⟨rfl, rfl⟩

/-- C9 witness: with every region failing, publish.py still attempts all
three configured regions, and publish1.py continues past a failure. -/
theorem c9_publish_per_region_witness :
    (Publish.publish_to_aws (fun _ => false) Publish.TARGET_REGIONS).map Publish.regionOf =
      Publish.TARGET_REGIONS ∧
    Publish1.publish_to_aws (fun _ => false) (("r1") :: [("r2")]) =
      Publish.RegionResult.failure ("r1") ::
        Publish1.publish_to_aws (fun _ => false) [("r2")] :=
  ⟨(c9_publish_per_region (fun _ => false) Publish.TARGET_REGIONS ("r1") [("r2")]
      true true rfl).1,
   (c9_publish_per_region (fun _ => false) Publish.TARGET_REGIONS ("r1") [("r2")]
      true true rfl).2.1⟩
